import Mathlib

/-!
Verification of `vat_checker.py`, a single-file Czech VAT reliability checker.

The module is embedded shallowly:
* `digitsOnly` embeds the input normalization `re.sub(r"\D", "", vat_input)`;
  the regex class `\d` of Python 3 string patterns matches exactly the
  characters of Unicode category Nd (decimal digit), not only ASCII 0-9, so
  the model keeps every Nd character (`isDigitNd`, from the Unicode 14.0
  category table used by the reference interpreter);
* `build_soap_envelope` embeds `_build_soap_envelope`;
* `ETree` is a model of parsed XML element trees
  (`xml.etree.ElementTree.Element`): a tag, an attribute list and a list of
  children; `findStatusElement` embeds the XPath query
  `.//crp:statusPlatceDPH[@dic='...']` (first match among proper descendants
  in document order);
* `interpret_status` embeds `_interpret_status`;
* `check_vat_reliability` embeds the function of the same name.  The network
  call `_call_service` is modelled by an oracle argument
  `svc : String → Option ETree`: `none` models any transport failure
  (connection error, non-2xx status, timeout) or XML parse failure, all of
  which `_call_service` converts to `None`; `some root` models a successfully
  parsed response document.

All definitions are total, mirroring the source's guarantee that every error
condition is converted into the returned record rather than raised.
-/

set_option autoImplicit false
set_option maxRecDepth 8192

namespace VatChecker

/-- Namespace URI constant `NS["soap"]` from the source. -/
def NS_soap : String := "http://schemas.xmlsoap.org/soap/envelope/"

/-- Namespace URI constant `NS["crp"]` from the source. -/
def NS_crp : String := "http://adis.mfcr.cz/rozhraniCRPDPH/"

/-- Constant `SOAP_ACTION` from the source. -/
def SOAP_ACTION : String := "getStatusNespolehlivyPlatce"

/-- Embeds `_build_soap_envelope`: the f-string template of lines 19-26,
with the two namespace constants interpolated and the VAT number embedded
verbatim as the text of the `<dic>` element. -/
def build_soap_envelope (vat_number : String) : String :=
  "<?xml version=\"1.0\" encoding=\"UTF-8\"?>\n" ++
  "<soapenv:Envelope xmlns:soapenv=\"" ++ NS_soap ++ "\">\n" ++
  "  <soapenv:Body>\n" ++
  "    <StatusNespolehlivyPlatceRequest xmlns=\"" ++ NS_crp ++ "\">\n" ++
  "      <dic>" ++ vat_number ++ "</dic>\n" ++
  "    </StatusNespolehlivyPlatceRequest>\n" ++
  "  </soapenv:Body>\n" ++
  "</soapenv:Envelope>"

/-- Code point ranges of Unicode category Nd (decimal digit), Unicode 14.0:
the exact character class Python's regex `\d` matches in string patterns.
Each pair is an inclusive `(lo, hi)` range. -/
def ndRanges : List (Nat × Nat) :=
  [(48, 57), (1632, 1641), (1776, 1785), (1984, 1993), (2406, 2415),
   (2534, 2543), (2662, 2671), (2790, 2799), (2918, 2927), (3046, 3055),
   (3174, 3183), (3302, 3311), (3430, 3439), (3558, 3567), (3664, 3673),
   (3792, 3801), (3872, 3881), (4160, 4169), (4240, 4249), (6112, 6121),
   (6160, 6169), (6470, 6479), (6608, 6617), (6784, 6793), (6800, 6809),
   (6992, 7001), (7088, 7097), (7232, 7241), (7248, 7257), (42528, 42537),
   (43216, 43225), (43264, 43273), (43472, 43481), (43504, 43513),
   (43600, 43609), (44016, 44025), (65296, 65305), (66720, 66729),
   (68912, 68921), (69734, 69743), (69872, 69881), (69942, 69951),
   (70096, 70105), (70384, 70393), (70736, 70745), (70864, 70873),
   (71248, 71257), (71360, 71369), (71472, 71481), (71904, 71913),
   (72016, 72025), (72784, 72793), (73040, 73049), (73120, 73129),
   (92768, 92777), (92864, 92873), (93008, 93017), (120782, 120831),
   (123200, 123209), (123632, 123641), (125264, 125273), (130032, 130041)]

/-- Is the character a Unicode decimal digit (category Nd) — the characters
Python's `\d` matches and `\D` spares?  Covers ASCII 0-9, Arabic-Indic,
fullwidth and all other Nd digits. -/
def isDigitNd (c : Char) : Bool :=
  ndRanges.any fun r => r.1 ≤ c.toNat && c.toNat ≤ r.2

/-- Embeds `re.sub(r"\D", "", ·)` on the character list: a left-to-right
scan deleting every character outside Unicode category Nd. -/
def removeNonDigits : List Char → List Char
  | [] => []
  | c :: cs =>
    if isDigitNd c then c :: removeNonDigits cs else removeNonDigits cs

/-- Embeds `re.sub(r"\D", "", vat_input)` on strings (line 82). -/
def digitsOnly (s : String) : String :=
  String.mk (removeNonDigits s.data)

mutual
/-- Model of a parsed XML element (`xml.etree.ElementTree.Element`):
a (namespace-qualified) tag, an attribute association list and the forest of
child elements in document order. -/
inductive ETree where
  | node (tag : String) (attrib : List (String × String)) (children : EForest)
/-- A list of sibling elements, spelt as a mutual inductive so searches are
structurally recursive. -/
inductive EForest where
  | nil
  | cons (head : ETree) (tail : EForest)
end

/-- The element's qualified tag. -/
def ETree.tag : ETree → String
  | .node t _ _ => t

/-- The element's attribute association list. -/
def ETree.attrib : ETree → List (String × String)
  | .node _ a _ => a

/-- The element's children in document order. -/
def ETree.children : ETree → EForest
  | .node _ _ c => c

/-- Embeds `attrib.get(key)`: first binding of `key` in the attribute list
(attribute names are unique in parsed XML, so this models the dict). -/
def lookupAttr (attrs : List (String × String)) (key : String) : Option String :=
  match attrs with
  | [] => none
  | (k, v) :: rest => if k = key then some v else lookupAttr rest key

/-- The fully qualified tag ElementTree uses for
`crp:statusPlatceDPH` under the namespace map `NS`. -/
def statusTag : String := "\x7b" ++ NS_crp ++ "\x7dstatusPlatceDPH"

/-- Does this element match `statusPlatceDPH[@dic='vat']`? -/
def matchesStatus (vat : String) (e : ETree) : Bool :=
  e.tag = statusTag && lookupAttr e.attrib "dic" = some vat

mutual
/-- Depth-first pre-order search for the first element matching
`statusPlatceDPH[@dic='vat']` — document order, as `Element.find` returns.
The element itself is checked first, then its subtrees left to right. -/
def findInTree (vat : String) : ETree → Option ETree
  | .node t a c =>
    if matchesStatus vat (ETree.node t a c) then some (ETree.node t a c)
    else findInForest vat c
/-- Search of `findInTree` over a forest, left to right. -/
def findInForest (vat : String) : EForest → Option ETree
  | .nil => none
  | .cons e rest =>
    match findInTree vat e with
    | some r => some r
    | none => findInForest vat rest
end

/-- Embeds `root.find(f".//crp:statusPlatceDPH[@dic='{vat}']", NS)`
(lines 98-99): the XPath `.//` axis selects proper descendants of `root`
at any depth, first match in document order. -/
def findStatusElement (root : ETree) (vat : String) : Option ETree :=
  findInForest vat root.children

/-- Embeds Python's `str.strip()`: drop whitespace from both ends. -/
def pyStrip (s : String) : String :=
  String.mk
    (((s.data.dropWhile Char.isWhitespace).reverse.dropWhile
      Char.isWhitespace).reverse)

/-- Embeds Python's `str.upper()`: upper-case every character. -/
def pyUpper (s : String) : String :=
  String.mk (s.data.map Char.toUpper)

/-- Embeds `_interpret_status` (lines 58-65). -/
def interpret_status (status : String) : String × String :=
  if status = "ANO" then ("Unreliable", "false")
  else if status = "NE" then ("Reliable", "true")
  else ("Not found", "NA")

/-- The result record built by `check_vat_reliability`: the dict with keys
`status`, `reliable_vat_payer`, `message`, `auto_checked`,
`vat_number_clean`. -/
structure CheckResult where
  status : String
  reliable_vat_payer : String
  message : String
  auto_checked : Bool
  vat_number_clean : String
  deriving Repr, DecidableEq

/-- Embeds `check_vat_reliability` (lines 68-116).  `svc` is the service
oracle standing for `_call_service`: it receives the cleaned digit string
and returns the parsed response root, or `none` on transport/parse failure.
Each branch builds the final state of the mutated `result` dict. -/
def check_vat_reliability (svc : String → Option ETree) (vat_input : String) :
    CheckResult :=
  let vat_number := digitsOnly vat_input
  if vat_number = "" then
    { status := "error"
      reliable_vat_payer := "true"
      message := "Invalid VAT number - no digits found"
      auto_checked := false
      vat_number_clean := vat_number }
  else
    match svc vat_number with
    | none =>
      { status := "error"
        reliable_vat_payer := "true"
        message := "Error: could not get response from VAT service"
        auto_checked := false
        vat_number_clean := vat_number }
    | some root =>
      match findStatusElement root vat_number with
      | none =>
        { status := "not_found"
          reliable_vat_payer := "NA"
          message := "VAT payer not found in registry"
          auto_checked := true
          vat_number_clean := vat_number }
      | some element =>
        let nsp := pyUpper (pyStrip
          ((lookupAttr element.attrib "nespolehlivyPlatce").getD ""))
        let res := interpret_status nsp
        { status := "success"
          reliable_vat_payer := res.2
          message := "VAT Tax payer status: " ++ res.1
          auto_checked := true
          vat_number_clean := vat_number }

/-! ### Spec-side XML document model for the request builder

The spec (§4.2) describes the request as "a well-formed XML document (UTF-8)
conforming to a fixed SOAP envelope shape: an `Envelope`/`Body` wrapper
containing a single request element whose sole child carries the digit string
as text content", with fixed namespace URI constants.  `Xml` and
`serializeXml` are that spec-side description — a chain of single-child
elements with attributes and a text leaf, rendered with two-space nesting —
against which `build_soap_envelope` is compared.  -/

/-- Spec-side XML: a text node, or an element with exactly one child
("a single request element whose sole child carries the digit string"). -/
inductive Xml where
  | text (s : String)
  | elem (name : String) (attrs : List (String × String)) (child : Xml)

/-- Render an attribute list as ` k="v" ...`. -/
def renderAttrs : List (String × String) → String
  | [] => ""
  | (k, v) :: rest => " " ++ k ++ "=\"" ++ v ++ "\"" ++ renderAttrs rest

/-- Indentation of `n` spaces. -/
def indentStr (n : Nat) : String :=
  String.mk (List.replicate n ' ')

/-- Serialize spec-side XML at a given indentation depth: an element whose
child is a text node is rendered inline; otherwise the child is rendered on
its own lines, two spaces deeper. -/
def serializeXml : Nat → Xml → String
  | _, .text s => s
  | d, .elem name attrs (.text s) =>
    indentStr d ++ "<" ++ name ++ renderAttrs attrs ++ ">" ++ s ++
      "</" ++ name ++ ">"
  | d, .elem name attrs (.elem n2 a2 c2) =>
    indentStr d ++ "<" ++ name ++ renderAttrs attrs ++ ">\n" ++
      serializeXml (d + 2) (.elem n2 a2 c2) ++ "\n" ++
      indentStr d ++ "</" ++ name ++ ">"

/-- The XML declaration line of a UTF-8 document. -/
def xmlDecl : String := "<?xml version=\"1.0\" encoding=\"UTF-8\"?>"

/-- The spec's request document shape: `Envelope`/`Body` wrapper around a
single request element whose sole child element carries `d` as its text
content, with the fixed namespace URI constants. -/
def soapDocSpec (d : String) : Xml :=
  .elem "soapenv:Envelope" [("xmlns:soapenv", NS_soap)]
    (.elem "soapenv:Body" []
      (.elem "StatusNespolehlivyPlatceRequest" [("xmlns", NS_crp)]
        (.elem "dic" [] (.text d))))

/-- A UTF-8 XML document: declaration, newline, serialized root. -/
def serializeDoc (root : Xml) : String :=
  xmlDecl ++ "\n" ++ serializeXml 0 root

/-! ### Concrete fixtures used by witnesses and counterexamples -/

/-- Service oracle modelling a transport or parse failure on every call. -/
def svcFail : String → Option ETree := fun _ => none

/-- A `statusPlatceDPH` element for DIC 25083062 with
`nespolehlivyPlatce="NE"`. -/
def sampleStatusNE : ETree :=
  .node "\x7bhttp://adis.mfcr.cz/rozhraniCRPDPH/\x7dstatusPlatceDPH"
    [("dic", "25083062"), ("nespolehlivyPlatce", "NE")] .nil

/-- A response document whose body holds
`statusPlatceDPH dic="25083062" nespolehlivyPlatce="NE"`. -/
def sampleRootNE : ETree :=
  .node "\x7bhttp://schemas.xmlsoap.org/soap/envelope/\x7dEnvelope" []
    (.cons
      (.node "\x7bhttp://schemas.xmlsoap.org/soap/envelope/\x7dBody" []
        (.cons sampleStatusNE .nil))
      .nil)

/-- A response document whose body holds
`statusPlatceDPH dic="25083062" nespolehlivyPlatce="ANO"`. -/
def sampleRootANO : ETree :=
  .node "\x7bhttp://schemas.xmlsoap.org/soap/envelope/\x7dEnvelope" []
    (.cons
      (.node "\x7bhttp://schemas.xmlsoap.org/soap/envelope/\x7dBody" []
        (.cons
          (.node "\x7bhttp://adis.mfcr.cz/rozhraniCRPDPH/\x7dstatusPlatceDPH"
            [("dic", "25083062"), ("nespolehlivyPlatce", "ANO")] .nil)
          .nil))
      .nil)

/-- A response document with no `statusPlatceDPH` element at all. -/
def sampleRootEmpty : ETree :=
  .node "\x7bhttp://schemas.xmlsoap.org/soap/envelope/\x7dEnvelope" []
    (.cons
      (.node "\x7bhttp://schemas.xmlsoap.org/soap/envelope/\x7dBody" [] .nil)
      .nil)

/-- Service oracle answering every query with `sampleRootNE`. -/
def svcNE : String → Option ETree := fun _ => some sampleRootNE

/-- Service oracle answering every query with `sampleRootANO`. -/
def svcANO : String → Option ETree := fun _ => some sampleRootANO

/-- Service oracle answering every query with `sampleRootEmpty`. -/
def svcEmpty : String → Option ETree := fun _ => some sampleRootEmpty

/-! ### Helper lemmas -/

/-- Deleting every non-digit is filtering by `isDigitNd`. -/
theorem removeNonDigits_eq_filter (l : List Char) :
    removeNonDigits l = l.filter (fun c => isDigitNd c) := by
  induction l with
  | nil => rfl
  | cons c cs ih =>
    by_cases h : isDigitNd c <;>
      simp [removeNonDigits, List.filter_cons, h, ih]

/-- Faithfulness check of the digit class: Arabic-Indic `٥` and fullwidth
`５` are kept by the normalization, exactly as `re.sub(r"\D", "", ·)` keeps
them, while letters and punctuation are removed. -/
theorem digitsOnly_keeps_nd_digits : digitsOnly "a٥-５9" = "٥５9" := by decide

/-- Normalization is idempotent: stripping non-digits twice equals once. -/
theorem digitsOnly_idem (s : String) :
    digitsOnly (digitsOnly s) = digitsOnly s := by
  unfold digitsOnly
  rw [removeNonDigits_eq_filter, removeNonDigits_eq_filter]
  congr 1
  exact List.filter_eq_self.mpr fun c hc => List.of_mem_filter hc

/-- An input with no Unicode decimal digit normalizes to the empty string. -/
theorem digitsOnly_eq_empty_of_no_digit (s : String)
    (h : ∀ c ∈ s.data, isDigitNd c = false) : digitsOnly s = "" := by
  unfold digitsOnly
  rw [removeNonDigits_eq_filter]
  have : s.data.filter (fun c => isDigitNd c) = [] :=
    List.filter_eq_nil_iff.mpr fun c hc => by simp [h c hc]
  rw [this]

/-- Branch characterization: empty normalized input. -/
theorem check_eq_invalid (svc : String → Option ETree) (input : String)
    (h : digitsOnly input = "") :
    check_vat_reliability svc input =
      { status := "error"
        reliable_vat_payer := "true"
        message := "Invalid VAT number - no digits found"
        auto_checked := false
        vat_number_clean := "" } := by
  unfold check_vat_reliability
  simp [h]

/-- Branch characterization: transport or parse failure. -/
theorem check_eq_transport_fail (svc : String → Option ETree) (input : String)
    (h : digitsOnly input ≠ "") (hf : svc (digitsOnly input) = none) :
    check_vat_reliability svc input =
      { status := "error"
        reliable_vat_payer := "true"
        message := "Error: could not get response from VAT service"
        auto_checked := false
        vat_number_clean := digitsOnly input } := by
  unfold check_vat_reliability
  simp [h, hf]

/-- Branch characterization: parsed response with no matching element. -/
theorem check_eq_not_found (svc : String → Option ETree) (input : String)
    (root : ETree) (h : digitsOnly input ≠ "")
    (hr : svc (digitsOnly input) = some root)
    (hn : findStatusElement root (digitsOnly input) = none) :
    check_vat_reliability svc input =
      { status := "not_found"
        reliable_vat_payer := "NA"
        message := "VAT payer not found in registry"
        auto_checked := true
        vat_number_clean := digitsOnly input } := by
  unfold check_vat_reliability
  simp [h, hr, hn]

/-- Branch characterization: matching element found. -/
theorem check_eq_success (svc : String → Option ETree) (input : String)
    (root element : ETree) (h : digitsOnly input ≠ "")
    (hr : svc (digitsOnly input) = some root)
    (he : findStatusElement root (digitsOnly input) = some element) :
    check_vat_reliability svc input =
      { status := "success"
        reliable_vat_payer :=
          (interpret_status (pyUpper (pyStrip
            ((lookupAttr element.attrib "nespolehlivyPlatce").getD
              "")))).2
        message := "VAT Tax payer status: " ++
          (interpret_status (pyUpper (pyStrip
            ((lookupAttr element.attrib "nespolehlivyPlatce").getD
              "")))).1
        auto_checked := true
        vat_number_clean := digitsOnly input } := by
  unfold check_vat_reliability
  simp [h, hr, he]

/-- Indentation at depth 0 is empty. -/
theorem indentStr_zero : indentStr 0 = "" := rfl

/-- Indentation at depth 2 is two spaces. -/
theorem indentStr_two : indentStr 2 = "  " := rfl

/-- Indentation at depth 4 is four spaces. -/
theorem indentStr_four : indentStr 4 = "    " := rfl

/-- Indentation at depth 6 is six spaces. -/
theorem indentStr_six : indentStr 6 = "      " := rfl

/-- Every branch stores the cleaned digit string in `vat_number_clean`. -/
theorem check_vat_number_clean (svc : String → Option ETree) (input : String) :
    (check_vat_reliability svc input).vat_number_clean = digitsOnly input := by
  by_cases h : digitsOnly input = ""
  · rw [check_eq_invalid svc input h, h]
  · cases hc : svc (digitsOnly input) with
    | none => rw [check_eq_transport_fail svc input h hc]
    | some root =>
      cases he : findStatusElement root (digitsOnly input) with
      | none => rw [check_eq_not_found svc input root h hc he]
      | some element => rw [check_eq_success svc input root element h hc he]

/-! ### Claim theorems -/

/-- C1, counterexample: the claimed invariant "reliable_vat_payer is 'true'
or 'false' only when status is 'success'" fails on the code at the concrete
input "25083062" with a failing service: the error record keeps the
initialized default `reliable_vat_payer = "true"` while `status = "error"`. -/
theorem C1_counterexample_default_true :
    ((check_vat_reliability svcFail "25083062").reliable_vat_payer = "true" ∨
     (check_vat_reliability svcFail "25083062").reliable_vat_payer = "false") ∧
    ¬ (check_vat_reliability svcFail "25083062").status = "success" := by
  decide

/-- C1, amended: for every service behavior and input, `auto_checked` is
false only when `status` is "error"; `reliable_vat_payer` is "NA" whenever
`status` is "not_found"; `reliable_vat_payer` is "false" only when `status`
is "success"; and `reliable_vat_payer` is "true" only when `status` is
"success" or "error" (the error paths keep the initialized default "true"). -/
theorem C1_amended_invariant (svc : String → Option ETree) (input : String) :
    ((check_vat_reliability svc input).auto_checked = false →
      (check_vat_reliability svc input).status = "error") ∧
    ((check_vat_reliability svc input).status = "not_found" →
      (check_vat_reliability svc input).reliable_vat_payer = "NA") ∧
    ((check_vat_reliability svc input).reliable_vat_payer = "false" →
      (check_vat_reliability svc input).status = "success") ∧
    ((check_vat_reliability svc input).reliable_vat_payer = "true" →
      (check_vat_reliability svc input).status = "success" ∨
      (check_vat_reliability svc input).status = "error") := by
  by_cases h : digitsOnly input = ""
  · rw [check_eq_invalid svc input h]
    simp
  · cases hc : svc (digitsOnly input) with
    | none =>
      rw [check_eq_transport_fail svc input h hc]
      simp
    | some root =>
      cases he : findStatusElement root (digitsOnly input) with
      | none =>
        rw [check_eq_not_found svc input root h hc he]
        simp
      | some element =>
        rw [check_eq_success svc input root element h hc he]
        by_cases h1 : pyUpper (pyStrip ((lookupAttr element.attrib
            "nespolehlivyPlatce").getD "")) = "ANO"
        · simp [interpret_status, h1]
        · by_cases h2 : pyUpper (pyStrip ((lookupAttr element.attrib
              "nespolehlivyPlatce").getD "")) = "NE"
          · simp [interpret_status, h1, h2]
          · simp [interpret_status, h1, h2]

/-- C1, witness: a concrete instance of the amended invariant — on a parsed
response with no matching element, `status = "not_found"` forces
`reliable_vat_payer = "NA"`. -/
theorem C1_amended_invariant_witness :
    (check_vat_reliability svcEmpty "25083062").reliable_vat_payer = "NA" :=
  (C1_amended_invariant svcEmpty "25083062").2.1 (by decide)

/-- C2: when the matching `statusPlatceDPH` element is present, the
`nespolehlivyPlatce` attribute (defaulting to "" if absent) is trimmed and
upper-cased, the status is "success" in all cases, and the value maps
through the exact table: "ANO" gives label "Unreliable" and
`reliable_vat_payer = "false"`, "NE" gives "Reliable"/"true", and anything
else (including empty) gives "Not found"/"NA". -/
theorem C2_present_element_mapping (svc : String → Option ETree)
    (input : String) (root element : ETree) (h : digitsOnly input ≠ "")
    (hr : svc (digitsOnly input) = some root)
    (he : findStatusElement root (digitsOnly input) = some element) :
    (check_vat_reliability svc input).status = "success" ∧
    (pyUpper (pyStrip ((lookupAttr element.attrib "nespolehlivyPlatce").getD
        "")) = "ANO" →
      (check_vat_reliability svc input).reliable_vat_payer = "false" ∧
      (check_vat_reliability svc input).message =
        "VAT Tax payer status: Unreliable") ∧
    (pyUpper (pyStrip ((lookupAttr element.attrib "nespolehlivyPlatce").getD
        "")) = "NE" →
      (check_vat_reliability svc input).reliable_vat_payer = "true" ∧
      (check_vat_reliability svc input).message =
        "VAT Tax payer status: Reliable") ∧
    (pyUpper (pyStrip ((lookupAttr element.attrib "nespolehlivyPlatce").getD
        "")) ≠ "ANO" →
      pyUpper (pyStrip ((lookupAttr element.attrib "nespolehlivyPlatce").getD
        "")) ≠ "NE" →
      (check_vat_reliability svc input).reliable_vat_payer = "NA" ∧
      (check_vat_reliability svc input).message =
        "VAT Tax payer status: Not found") := by
  rw [check_eq_success svc input root element h hr he]
  by_cases h1 : pyUpper (pyStrip ((lookupAttr element.attrib
      "nespolehlivyPlatce").getD "")) = "ANO"
  · simp [interpret_status, h1]
  · by_cases h2 : pyUpper (pyStrip ((lookupAttr element.attrib
        "nespolehlivyPlatce").getD "")) = "NE"
    · simp [interpret_status, h1, h2]
    · simp [interpret_status, h1, h2]

/-- C2, witness: the scenario of §8 — input "CZ25083062", response holding
`statusPlatceDPH dic="25083062" nespolehlivyPlatce="NE"` — yields status
"success", `reliable_vat_payer = "true"` and the "Reliable" message. -/
theorem C2_present_element_mapping_witness :
    (check_vat_reliability svcNE "CZ25083062").status = "success" ∧
    (check_vat_reliability svcNE "CZ25083062").reliable_vat_payer = "true" ∧
    (check_vat_reliability svcNE "CZ25083062").message =
      "VAT Tax payer status: Reliable" := by
  have hmain := C2_present_element_mapping svcNE "CZ25083062" sampleRootNE
    sampleStatusNE (by decide) rfl rfl
  exact ⟨hmain.1, (hmain.2.2.1 (by decide)).1, (hmain.2.2.1 (by decide)).2⟩

/-- C3: when the service call fails (transport error, non-2xx, timeout or
unparsable XML, all modelled as the oracle returning `none`), the result is
the full error record with `status = "error"`, `auto_checked = false` and
the declared default `reliable_vat_payer = "true"`; no exception escapes —
the embedding is a total function. -/
theorem C3_transport_failure (svc : String → Option ETree) (input : String)
    (h : digitsOnly input ≠ "") (hf : svc (digitsOnly input) = none) :
    check_vat_reliability svc input =
      { status := "error"
        reliable_vat_payer := "true"
        message := "Error: could not get response from VAT service"
        auto_checked := false
        vat_number_clean := digitsOnly input } :=
  check_eq_transport_fail svc input h hf

/-- C3, witness: concrete instance at input "25083062" with the failing
service oracle. -/
theorem C3_transport_failure_witness :
    digitsOnly "25083062" ≠ "" ∧
    check_vat_reliability svcFail "25083062" =
      { status := "error"
        reliable_vat_payer := "true"
        message := "Error: could not get response from VAT service"
        auto_checked := false
        vat_number_clean := digitsOnly "25083062" } :=
  ⟨by decide, C3_transport_failure svcFail "25083062" (by decide) rfl⟩

/-- C4: when the parsed response has no `statusPlatceDPH` element whose
`dic` attribute equals the sent digit string, the result has
`status = "not_found"` and `reliable_vat_payer = "NA"`. -/
theorem C4_not_found (svc : String → Option ETree) (input : String)
    (root : ETree) (h : digitsOnly input ≠ "")
    (hr : svc (digitsOnly input) = some root)
    (hn : findStatusElement root (digitsOnly input) = none) :
    (check_vat_reliability svc input).status = "not_found" ∧
    (check_vat_reliability svc input).reliable_vat_payer = "NA" := by
  rw [check_eq_not_found svc input root h hr hn]
  exact ⟨rfl, rfl⟩

/-- C4, witness: concrete instance with a response document holding no
status element. -/
theorem C4_not_found_witness :
    digitsOnly "25083062" ≠ "" ∧
    (check_vat_reliability svcEmpty "25083062").status = "not_found" ∧
    (check_vat_reliability svcEmpty "25083062").reliable_vat_payer = "NA" :=
  ⟨by decide, C4_not_found svcEmpty "25083062" sampleRootEmpty (by decide)
    rfl rfl⟩

/-- C5: an input containing no decimal-digit character — no character of
Unicode category Nd, the class the program's `\D` substitution spares —
yields the invalid record with `status = "error"` and
`auto_checked = false`, and the result is the same for every service
oracle — the service call is never attempted. -/
theorem C5_no_digits (input : String)
    (hnd : ∀ c ∈ input.data, isDigitNd c = false)
    (svc : String → Option ETree) :
    check_vat_reliability svc input =
      { status := "error"
        reliable_vat_payer := "true"
        message := "Invalid VAT number - no digits found"
        auto_checked := false
        vat_number_clean := "" } :=
  check_eq_invalid svc input (digitsOnly_eq_empty_of_no_digit input hnd)

/-- C5, witness: concrete instance at the digit-free input "CZ-ABC". -/
theorem C5_no_digits_witness :
    (∀ c ∈ "CZ-ABC".data, isDigitNd c = false) ∧
    (check_vat_reliability svcNE "CZ-ABC").status = "error" ∧
    (check_vat_reliability svcNE "CZ-ABC").auto_checked = false := by
  have hnd : ∀ c ∈ "CZ-ABC".data, isDigitNd c = false := by decide
  have h := C5_no_digits "CZ-ABC" hnd svcNE
  rw [h]
  exact ⟨hnd, rfl, rfl⟩

/-- C6: for every input and every service behavior, `vat_number_clean`
equals the input with every non-digit character removed — "digit" being the
program's digit class, Unicode category Nd, which `re.sub(r"\D", "", ·)`
keeps (ASCII 0-9, Arabic-Indic, fullwidth, ...) — with the remaining digits
kept in their original order: the Nd filter of the input's character list. -/
theorem C6_clean_is_digit_filter (svc : String → Option ETree)
    (input : String) :
    (check_vat_reliability svc input).vat_number_clean =
      String.mk (input.data.filter (fun c => isDigitNd c)) := by
  rw [check_vat_number_clean svc input]
  unfold digitsOnly
  rw [removeNonDigits_eq_filter]

/-- C7: formatting insensitivity — for one service oracle, two inputs with
equal digit extractions produce equal records, and every input behaves as
its own digit extraction does. -/
theorem C7_format_insensitive (svc : String → Option ETree) (x y : String)
    (h : digitsOnly x = digitsOnly y) :
    check_vat_reliability svc x = check_vat_reliability svc y ∧
    check_vat_reliability svc x =
      check_vat_reliability svc (digitsOnly x) := by
  constructor
  · unfold check_vat_reliability
    rw [h]
  · unfold check_vat_reliability
    rw [digitsOnly_idem]

/-- C7, witness: the §8 scenario pair "CZ25083062" and "250 830 62"
extract the same digits, hence get identical records. -/
theorem C7_format_insensitive_witness :
    digitsOnly "CZ25083062" = digitsOnly "250 830 62" ∧
    check_vat_reliability svcNE "CZ25083062" =
      check_vat_reliability svcNE "250 830 62" :=
  ⟨by decide, (C7_format_insensitive svcNE "CZ25083062" "250 830 62"
    (by decide)).1⟩

/-- C8: for every input and service outcome the embedding returns a complete
record (it is a total function — the Python code converts every transport,
parse and input failure into the record): its status is one of the three
enumerated values, its message is always set, and its `vat_number_clean` is
always the digit extraction. -/
theorem C8_total_record (svc : String → Option ETree) (input : String) :
    ((check_vat_reliability svc input).status = "error" ∨
     (check_vat_reliability svc input).status = "not_found" ∨
     (check_vat_reliability svc input).status = "success") ∧
    (check_vat_reliability svc input).message ≠ "" ∧
    (check_vat_reliability svc input).vat_number_clean = digitsOnly input := by
  refine ⟨?_, ?_, check_vat_number_clean svc input⟩ <;>
  · by_cases h : digitsOnly input = ""
    · rw [check_eq_invalid svc input h]
      simp
    · cases hc : svc (digitsOnly input) with
      | none =>
        rw [check_eq_transport_fail svc input h hc]
        simp
      | some root =>
        cases he : findStatusElement root (digitsOnly input) with
        | none =>
          rw [check_eq_not_found svc input root h hc he]
          simp
        | some element =>
          rw [check_eq_success svc input root element h hc he]
          by_cases h1 : pyUpper (pyStrip ((lookupAttr element.attrib
              "nespolehlivyPlatce").getD "")) = "ANO"
          · simp [interpret_status, h1]
          · by_cases h2 : pyUpper (pyStrip ((lookupAttr element.attrib
                "nespolehlivyPlatce").getD "")) = "NE"
            · simp [interpret_status, h1, h2]
            · simp [interpret_status, h1, h2]

/-- C9: for a digit-only string the builder produces exactly the UTF-8 XML
document of the spec's shape — declaration, then an `Envelope`/`Body`
wrapper around a single request element whose sole child carries the digit
string verbatim as its text, with the fixed namespace URI constants — and
the digit string contains no XML markup character, so the document is
well-formed. -/
theorem C9_envelope_shape (d : String) (hd : ∀ c ∈ d.data, c.isDigit = true) :
    build_soap_envelope d = serializeDoc (soapDocSpec d) ∧
    ∀ c ∈ d.data, c ≠ '<' ∧ c ≠ '>' ∧ c ≠ '&' ∧ c ≠ '"' := by
  constructor
  · simp only [build_soap_envelope, serializeDoc, soapDocSpec, serializeXml,
      xmlDecl, renderAttrs, indentStr_zero, indentStr_two, indentStr_four,
      indentStr_six, NS_soap, NS_crp]
    simp [String.append_assoc, indentStr_zero, indentStr_two, indentStr_four,
      indentStr_six]
    simp [← String.append_assoc]
  · intro c hc
    have h := hd c hc
    refine ⟨?_, ?_, ?_, ?_⟩ <;> intro heq <;> rw [heq] at h <;>
      exact absurd h (by decide)

/-- C9, witness: concrete instance at the normalized scenario input
"25083062". -/
theorem C9_envelope_shape_witness :
    (∀ c ∈ "25083062".data, c.isDigit = true) ∧
    build_soap_envelope "25083062" = serializeDoc (soapDocSpec "25083062") :=
  ⟨by decide, (C9_envelope_shape "25083062" (by decide)).1⟩

/-- C10: on the invalid-input path (no digits in the input) the returned
record keeps the initialized default `reliable_vat_payer = "true"` even
though the check failed, alongside `status = "error"` and
`auto_checked = false`. -/
theorem C10_invalid_input_default (svc : String → Option ETree)
    (input : String) (h : digitsOnly input = "") :
    (check_vat_reliability svc input).reliable_vat_payer = "true" ∧
    (check_vat_reliability svc input).status = "error" ∧
    (check_vat_reliability svc input).auto_checked = false := by
  rw [check_eq_invalid svc input h]
  exact ⟨rfl, rfl, rfl⟩

/-- C10, witness: concrete instance at the digit-free input "abc". -/
theorem C10_invalid_input_default_witness :
    digitsOnly "abc" = "" ∧
    (check_vat_reliability svcFail "abc").reliable_vat_payer = "true" :=
  ⟨by decide, (C10_invalid_input_default svcFail "abc" (by decide)).1⟩

end VatChecker
